import Mathlib

/-!
Verification of the AardvarkGPIO controller (`src/lib/aardvark_gpio.py`)
against its natural-language specification.

The embedding models the library as explicit state passing over a simulated
GPIO register (a natural number; the hardware register is an 8-bit field, and
every statement below is proved for all register values).  Calls into the
vendor driver are recorded as an event trace, so that "no device I/O occurs"
and "same sequence of driver reads/writes" become statements about traces.
Fallible Python code is modelled with `Except`.
-/

namespace AardvarkGPIO

/-- Python exception values raised by the library code, by constructor kind
and message, mirroring the `raise` sites of `aardvark_gpio.py`.  The extra
constructor `driverInvalidHandle` stands for the failure of a vendor-binding
call made without a valid handle; see `aa_gpio_get`. -/
inductive PyError where
  | valueError (msg : String)
  | typeError (msg : String)
  | runtimeError (msg : String)
  | driverInvalidHandle
  deriving DecidableEq, Repr

/-- The error taxonomy of the specification (section 7): `InvalidArgument`,
`DeviceNotFound`, `DeviceOpenFailed`, `NotOpen`.  (`DeviceIOError` has no
raise site in the code and no claim mentions it, so it is omitted.) -/
inductive ErrKind where
  | invalidArgument
  | deviceNotFound
  | deviceOpenFailed
  | notOpen
  deriving DecidableEq, Repr

/-- Classification of the code's exceptions under the spec's taxonomy.
The two `ValueError` sites (bad pin selector, bad port index) and the
`TypeError` site (pin selector of a wrong type) are the spec's
`InvalidArgument`; the two `RuntimeError` sites are told apart by their
message prefix (`_open` raises "No Aardvark adapters found..." for zero
devices and "Failed to open..." for a non-positive handle). -/
def errKind : PyError → ErrKind
  | .valueError _ => .invalidArgument
  | .typeError _ => .invalidArgument
  | .runtimeError msg =>
      if "Failed to open".data.isPrefixOf msg.data then .deviceOpenFailed
      else .deviceNotFound
  | .driverInvalidHandle => .notOpen

/-- Modelled from the spec: the vendor constants `aa.AA_GPIO_SCL` ...
`aa.AA_GPIO_SS` are out of scope (external SDK); per the spec each pin name
maps to "a fixed single-bit mask", one bit out of 8, in pin order 0..5. -/
def AA_GPIO_SCL : Nat := 0x01

/-- Modelled from the spec: vendor constant, bit 1. -/
def AA_GPIO_SDA : Nat := 0x02

/-- Modelled from the spec: vendor constant, bit 2. -/
def AA_GPIO_MISO : Nat := 0x04

/-- Modelled from the spec: vendor constant, bit 3. -/
def AA_GPIO_SCK : Nat := 0x08

/-- Modelled from the spec: vendor constant, bit 4. -/
def AA_GPIO_MOSI : Nat := 0x10

/-- Modelled from the spec: vendor constant, bit 5. -/
def AA_GPIO_SS : Nat := 0x20

/-- Vendor mode constant: `AA_CONFIG_GPIO_ONLY = 0x00` (stated in the code
comment at the `aa_configure` call). -/
def AA_CONFIG_GPIO_ONLY : Nat := 0x00

/-- `AardvarkGPIO.GPIO_PINS`: the ordered pin-name-to-mask table (a Python
`dict`, which preserves insertion order). -/
def GPIO_PINS : List (String × Nat) :=
  [("SCL", AA_GPIO_SCL), ("SDA", AA_GPIO_SDA), ("MISO", AA_GPIO_MISO),
   ("SCK", AA_GPIO_SCK), ("MOSI", AA_GPIO_MOSI), ("SS", AA_GPIO_SS)]

/-- `list(self.GPIO_PINS.keys())`. -/
def pin_names : List String := GPIO_PINS.map Prod.fst

/-- Equality of `Except` values is decidable when it is on both sides. -/
instance {ε α : Type} [DecidableEq ε] [DecidableEq α] : DecidableEq (Except ε α) :=
  fun x y =>
    match x, y with
    | .ok a, .ok b =>
        decidable_of_iff (a = b) ⟨fun h => by rw [h], fun h => Except.ok.inj h⟩
    | .error a, .error b =>
        decidable_of_iff (a = b) ⟨fun h => by rw [h], fun h => Except.error.inj h⟩
    | .ok _, .error _ => isFalse (fun h => Except.noConfusion h)
    | .error _, .ok _ => isFalse (fun h => Except.noConfusion h)

/-- Python's `str.upper()` as used on the pin selector (`pin.upper()`),
restricted to ASCII strings: character-wise ASCII upper-casing.  On ASCII
input this coincides exactly with Python's Unicode-aware `upper()` (every
ASCII character has a simple one-to-one ASCII uppercase mapping); Python's
special Unicode case mappings, which can carry a non-ASCII string onto a
pin name, are not embedded, so every statement about string selectors is
made only for ASCII strings (see `isAsciiStr`).  (Lean's own
`String.toUpper` is the same charwise map but is defined by byte-position
recursion, which the kernel cannot evaluate; this form computes.) -/
def str_upper (s : String) : String := ⟨s.data.map Char.toUpper⟩

/-- The strings on which `str_upper` is a faithful model of Python's
`upper()`: those made of ASCII characters only. -/
def isAsciiStr (s : String) : Bool := s.data.all (fun c => c.toNat < 128)

/-- The pin argument of `AardvarkGPIO.__init__`: a Python `int`, a Python
`str`, or a value of any other type. -/
inductive PinSelector where
  | int (n : Int)
  | str (s : String)
  | other
  deriving DecidableEq, Repr

/-- The pin-selector validation and resolution of `AardvarkGPIO.__init__`
(lines 75-90): an `int` must lie in 0..5 and indexes the key list; a `str`
is upper-cased and must be a key of `GPIO_PINS`; anything else is a
`TypeError`.  Returns the resolved `(pin_name, pin_mask)`. -/
def resolve_pin : PinSelector → Except PyError (String × Nat)
  | .int n =>
      if n < 0 ∨ 5 < n then
        .error (.valueError s!"Invalid GPIO pin: {n}. Must be 0-5")
      else
        let name := pin_names.getD n.toNat ""
        .ok (name, (GPIO_PINS.lookup name).getD 0)
  | .str s =>
      let u := str_upper s
      match GPIO_PINS.lookup u with
      | some m => .ok (u, m)
      | none => .error (.valueError s!"Invalid GPIO pin name: {s}")
  | .other => .error (.typeError "pin must be int (0-5) or str (pin name)")

/-- One call into the vendor driver, as observed at the driver boundary. -/
inductive Event where
  | findDevices (n : Nat)
  | openDev (port : Nat) (h : Int)
  | version
  | configure (mode : Nat)
  | gpioDirection (mask : Nat)
  | gpioPullup (mask : Nat)
  | gpioGet (v : Nat)
  | gpioSet (v : Nat)
  | sleepMs (ms : Nat)
  | closeDev (h : Int)
  deriving DecidableEq, Repr

/-- The controller's fields that the claims observe.  `verbose` only gates
`print` logging and is omitted. -/
structure Controller where
  port : Nat
  pin_name : String
  pin_mask : Nat
  handle : Option Int
  deriving DecidableEq, Repr

/-- A handle is usable exactly when it is a positive integer (`aa_open`
returns a positive handle on success; `self.handle` is `None` before open
and after close). -/
def validHandle : Option Int → Bool
  | none => false
  | some h => decide (0 < h)

/-- Modelled from the spec: `aa.aa_gpio_get` belongs to the out-of-scope
vendor driver, "treated as an opaque capability exposing ...
gpio_get(handle) -> bitfield".  In this simulated-register model it returns
the current register; per the spec a pin operation "never fails except if
the handle is invalid (NotOpen error)", so a call without a valid handle
fails. -/
def aa_gpio_get (h : Option Int) (reg : Nat) : Except PyError Nat :=
  if validHandle h then .ok reg else .error .driverInvalidHandle

/-- Modelled from the spec: `aa.aa_gpio_set`, the register write of the
opaque vendor driver; fails without a valid handle (see `aa_gpio_get`). -/
def aa_gpio_set (h : Option Int) (v : Nat) : Except PyError Unit :=
  if validHandle h then .ok () else .error .driverInvalidHandle

/-- `AardvarkGPIO.set_high` (lines 153-167): read the register, clear the
pin's bit (`current & ~self.pin_mask`, physical LOW), write it back, read
back for verification.  Returns the final register value and the driver
trace. -/
def set_high (c : Controller) (reg : Nat) : Except PyError (Nat × List Event) := do
  let current ← aa_gpio_get c.handle reg
  let new_value := Nat.ldiff current c.pin_mask
  let _ ← aa_gpio_set c.handle new_value
  let actual ← aa_gpio_get c.handle new_value
  pure (actual, [.gpioGet current, .gpioSet new_value, .gpioGet actual])

/-- `AardvarkGPIO.set_low` (lines 169-183): read the register, set the pin's
bit (`current | self.pin_mask`, physical HIGH), write it back, read back. -/
def set_low (c : Controller) (reg : Nat) : Except PyError (Nat × List Event) := do
  let current ← aa_gpio_get c.handle reg
  let new_value := current ||| c.pin_mask
  let _ ← aa_gpio_set c.handle new_value
  let actual ← aa_gpio_get c.handle new_value
  pure (actual, [.gpioGet current, .gpioSet new_value, .gpioGet actual])

/-- `AardvarkGPIO.get_state` (lines 185-196): read the register and return
whether the pin's bit is set (`(value & self.pin_mask) != 0`). -/
def get_state (c : Controller) (reg : Nat) : Except PyError (Bool × List Event) := do
  let value ← aa_gpio_get c.handle reg
  pure ((value &&& c.pin_mask) != 0, [.gpioGet value])

/-- `AardvarkGPIO.pulse` (lines 198-207): `set_low()`, then
`time.sleep(duration_ms / 1000.0)`, then `set_high()`.  The blocking sleep
is recorded as a `sleepMs` event carrying the requested duration. -/
def pulse (c : Controller) (reg : Nat) (duration_ms : Nat) :
    Except PyError (Nat × List Event) := do
  let (r1, e1) ← set_low c reg
  let (r2, e2) ← set_high c r1
  pure (r2, e1 ++ [Event.sleepMs duration_ms] ++ e2)

/-- The specification's description of Pulse, written from the spec's words
(sections 4.1 and 8): "SetLow() ... suspend the calling context for
durationMs milliseconds ... then SetHigh()". -/
def pulse_spec (c : Controller) (reg : Nat) (d : Nat) :
    Except PyError (Nat × List Event) := do
  let (r1, e1) ← set_low c reg
  let (r2, e2) ← set_high c r1
  pure (r2, e1 ++ [Event.sleepMs d] ++ e2)

/-- `AardvarkGPIO.close` (lines 209-214): `if self.handle:` — a Python
truthiness test, false exactly for `None` and `0` — then `aa_close(handle)`
and `self.handle = None`.  Otherwise a no-op. -/
def close (c : Controller) : Controller × List Event :=
  match c.handle with
  | none => (c, [])
  | some h => if h = 0 then (c, []) else ({ c with handle := none }, [Event.closeDev h])

/-- `AardvarkGPIO.__exit__` (context-manager exit): calls `self.close()`. -/
def contextExit (c : Controller) : Controller × List Event := close c

/-- `AardvarkGPIO.__del__` (destructor): calls `self.close()`. -/
def destructor (c : Controller) : Controller × List Event := close c

/-- The environment of one `_open` call: what the driver would answer.
`num_devices` is the count returned by `aa_find_devices_ext`, `open_handle`
the value `aa_open(port)` would return, `reg0` the register content at the
first `aa_gpio_get`. -/
structure OpenEnv where
  num_devices : Nat
  open_handle : Int
  reg0 : Nat
  deriving DecidableEq, Repr

/-- Outcome of `_open` / `__init__`: the `self.handle` field as left behind
(also when an exception was raised), the register content, the driver trace
and the exception, if any. -/
structure OpenOutcome where
  handle : Option Int
  reg : Nat
  events : List Event
  error : Option PyError
  deriving DecidableEq, Repr

/-- Error message of the non-positive-handle branch of `_open` (line 117):
carries the vendor error code, which is the returned handle value. -/
def openFailedMsg (port : Nat) (h : Int) : String :=
  s!"Failed to open Aardvark on port {port}. Error code: {h}"

/-- Error message of the port-range branch of `_open` (line 111). -/
def portNotAvailableMsg (port n : Nat) : String :=
  s!"Port {port} not available. Found {n} device(s)"

/-- Error message of the zero-devices branch of `_open` (line 106). -/
def noDevicesMsg : String := "No Aardvark adapters found. Check USB connection."

/-- `AardvarkGPIO._configure_gpio` (lines 135-151): set direction to
`pin_mask`, disable pullups (`0x00`), read the register, clear the pin's
bit (`current & ~self.pin_mask`), write back.  Called by `_open` only after
the handle was checked positive, so the driver calls are modelled
infallible here. -/
def configure_gpio (pin_mask : Nat) (reg : Nat) : Nat × List Event :=
  let new_value := Nat.ldiff reg pin_mask
  (new_value,
   [Event.gpioDirection pin_mask, Event.gpioPullup 0x00,
    Event.gpioGet reg, Event.gpioSet new_value])

/-- `AardvarkGPIO._open` (lines 100-133): find devices (zero found raises
`RuntimeError`); check `self.port >= num_devices` (raises `ValueError`);
`self.handle = aa_open(port)`, then `self.handle <= 0` raises
`RuntimeError` — note the handle field keeps the non-positive value; then
version query, `aa_configure(AA_CONFIG_GPIO_ONLY)` and `_configure_gpio`. -/
def openRun (port : Nat) (pin_mask : Nat) (env : OpenEnv) : OpenOutcome :=
  if env.num_devices = 0 then
    { handle := none, reg := env.reg0,
      events := [Event.findDevices env.num_devices],
      error := some (PyError.runtimeError noDevicesMsg) }
  else if env.num_devices ≤ port then
    { handle := none, reg := env.reg0,
      events := [Event.findDevices env.num_devices],
      error := some (PyError.valueError (portNotAvailableMsg port env.num_devices)) }
  else if env.open_handle ≤ 0 then
    { handle := some env.open_handle, reg := env.reg0,
      events := [Event.findDevices env.num_devices, Event.openDev port env.open_handle],
      error := some (PyError.runtimeError (openFailedMsg port env.open_handle)) }
  else
    let cfg := configure_gpio pin_mask env.reg0
    { handle := some env.open_handle, reg := cfg.1,
      events := [Event.findDevices env.num_devices, Event.openDev port env.open_handle,
                 Event.version, Event.configure AA_CONFIG_GPIO_ONLY] ++ cfg.2,
      error := none }

/-- Outcome of `__init__`: the resolved pin (if resolution succeeded) plus
the `_open` outcome.  On a resolution failure no driver call has happened
(`events = []`) and `self.handle` is still `None` (set on line 72 before
the validation). -/
structure InitOutcome where
  pin : Option (String × Nat)
  handle : Option Int
  reg : Nat
  events : List Event
  error : Option PyError
  deriving DecidableEq, Repr

/-- `AardvarkGPIO.__init__` (lines 62-93): set `self.handle = None`,
validate and resolve the pin selector, then call `self._open()`. -/
def init (port : Nat) (pin : PinSelector) (env : OpenEnv) : InitOutcome :=
  match resolve_pin pin with
  | .error e =>
      { pin := none, handle := none, reg := env.reg0, events := [], error := some e }
  | .ok (name, mask) =>
      let o := openRun port mask env
      { pin := some (name, mask), handle := o.handle, reg := o.reg,
        events := o.events, error := o.error }

/-- The invalid pin selectors, as the spec enumerates them: an integer
outside 0..5, a string that does not name a pin case-insensitively, or a
value of any other type.  The string case is stated for ASCII strings
only, because on ASCII input `str_upper` coincides with Python's
`upper()`; a non-ASCII string can be carried onto a pin name by Python's
Unicode case mappings (which are not embedded), so nothing is asserted
about it. -/
def invalidSelector : PinSelector → Prop
  | .int n => n < 0 ∨ 5 < n
  | .str s => isAsciiStr s = true ∧ GPIO_PINS.lookup (str_upper s) = none
  | .other => True

instance : DecidablePred invalidSelector := by
  intro p
  cases p with
  | int n => exact inferInstanceAs (Decidable (n < 0 ∨ 5 < n))
  | str s =>
    exact inferInstanceAs
      (Decidable (isAsciiStr s = true ∧ GPIO_PINS.lookup (str_upper s) = none))
  | other => exact inferInstanceAs (Decidable True)

/-- A logical pin operation, for stating the C1 invariant over call
sequences. -/
inductive PinOp where
  | low
  | high
  deriving DecidableEq, Repr

/-- Dispatch one logical operation to `set_low` / `set_high`. -/
def apply_pin_op (c : Controller) (reg : Nat) : PinOp → Except PyError (Nat × List Event)
  | .low => set_low c reg
  | .high => set_high c reg

/-- Run a sequence of `set_low`/`set_high` calls, threading the register. -/
def run_ops (c : Controller) : Nat → List PinOp → Except PyError Nat
  | reg, [] => .ok reg
  | reg, op :: rest => do
      let (r, _) ← apply_pin_op c reg op
      run_ops c r rest

/-! ### Helper lemmas -/

theorem lor_land_self (reg m : Nat) : (reg ||| m) &&& m = m := by
  apply Nat.eq_of_testBit_eq
  intro i
  simp only [Nat.testBit_land, Nat.testBit_lor]
  cases m.testBit i <;> simp

theorem ldiff_land_self (reg m : Nat) : Nat.ldiff reg m &&& m = 0 := by
  apply Nat.eq_of_testBit_eq
  intro i
  simp only [Nat.testBit_land, Nat.testBit_ldiff, Nat.zero_testBit]
  cases m.testBit i <;> simp

theorem set_low_open (c : Controller) (reg : Nat) (h : validHandle c.handle = true) :
    set_low c reg = .ok (reg ||| c.pin_mask,
      [.gpioGet reg, .gpioSet (reg ||| c.pin_mask), .gpioGet (reg ||| c.pin_mask)]) := by
  simp [set_low, aa_gpio_get, aa_gpio_set, h, Bind.bind, Except.bind, Pure.pure, Except.pure]

theorem set_high_open (c : Controller) (reg : Nat) (h : validHandle c.handle = true) :
    set_high c reg = .ok (Nat.ldiff reg c.pin_mask,
      [.gpioGet reg, .gpioSet (Nat.ldiff reg c.pin_mask),
       .gpioGet (Nat.ldiff reg c.pin_mask)]) := by
  simp [set_high, aa_gpio_get, aa_gpio_set, h, Bind.bind, Except.bind, Pure.pure, Except.pure]

theorem get_state_open (c : Controller) (reg : Nat) (h : validHandle c.handle = true) :
    get_state c reg = .ok ((reg &&& c.pin_mask) != 0, [.gpioGet reg]) := by
  simp [get_state, aa_gpio_get, h, Bind.bind, Except.bind, Pure.pure, Except.pure]

theorem set_low_closed (c : Controller) (reg : Nat) (h : validHandle c.handle = false) :
    set_low c reg = .error .driverInvalidHandle := by
  simp [set_low, aa_gpio_get, h, Bind.bind, Except.bind]

theorem set_high_closed (c : Controller) (reg : Nat) (h : validHandle c.handle = false) :
    set_high c reg = .error .driverInvalidHandle := by
  simp [set_high, aa_gpio_get, h, Bind.bind, Except.bind]

theorem get_state_closed (c : Controller) (reg : Nat) (h : validHandle c.handle = false) :
    get_state c reg = .error .driverInvalidHandle := by
  simp [get_state, aa_gpio_get, h, Bind.bind, Except.bind]

theorem pulse_closed (c : Controller) (reg d : Nat) (h : validHandle c.handle = false) :
    pulse c reg d = .error .driverInvalidHandle := by
  simp [pulse, set_low_closed c reg h, Bind.bind, Except.bind]

/-- The last logical operation determines the pin's bit: after running any
sequence of `set_low`/`set_high` calls on an open controller, the pin's bit
is set exactly when the final operation was `set_low` (and is unchanged by
an empty sequence). -/
theorem run_ops_last (c : Controller) (hopen : validHandle c.handle = true)
    (hmask : c.pin_mask ≠ 0) :
    ∀ (ops : List PinOp) (reg : Nat),
      Except.map (fun r => (r &&& c.pin_mask) != 0) (run_ops c reg ops)
        = Except.ok (match ops.getLast? with
            | some PinOp.low => true
            | some PinOp.high => false
            | none => (reg &&& c.pin_mask) != 0) := by
  intro ops
  induction ops with
  | nil => intro reg; simp [run_ops, Except.map]
  | cons op rest ih =>
    intro reg
    have step : ∀ v es, apply_pin_op c reg op = Except.ok (v, es) →
        run_ops c reg (op :: rest) = run_ops c v rest := by
      intro v es hv
      simp [run_ops, hv, Bind.bind, Except.bind]
    cases op with
    | low =>
      rw [step (reg ||| c.pin_mask)
        [.gpioGet reg, .gpioSet (reg ||| c.pin_mask), .gpioGet (reg ||| c.pin_mask)]
        (by simp [apply_pin_op, set_low_open c reg hopen])]
      rw [ih (reg ||| c.pin_mask)]
      cases rest with
      | nil => simp [lor_land_self, hmask]
      | cons b t =>
        rw [List.getLast?_cons_cons]
        cases hbt : (b :: t).getLast? with
        | none => exact absurd (List.getLast?_eq_none_iff.mp hbt) (by simp)
        | some x => cases x <;> rfl
    | high =>
      rw [step (Nat.ldiff reg c.pin_mask)
        [.gpioGet reg, .gpioSet (Nat.ldiff reg c.pin_mask),
         .gpioGet (Nat.ldiff reg c.pin_mask)]
        (by simp [apply_pin_op, set_high_open c reg hopen])]
      rw [ih (Nat.ldiff reg c.pin_mask)]
      cases rest with
      | nil => simp [ldiff_land_self]
      | cons b t =>
        rw [List.getLast?_cons_cons]
        cases hbt : (b :: t).getLast? with
        | none => exact absurd (List.getLast?_eq_none_iff.mp hbt) (by simp)
        | some x => cases x <;> rfl

/-- Resolving a string selector whose upper-casing is a key of `GPIO_PINS`
yields that key together with its mask. -/
theorem resolve_pin_str (s : String) (m : Nat)
    (h : GPIO_PINS.lookup (str_upper s) = some m) :
    resolve_pin (.str s) = .ok (str_upper s, m) := by
  simp [resolve_pin, h]

/-! ### Claims -/

/-- C1: for every sequence of `set_low`/`set_high` calls on an open
controller, starting from the register as `_configure_gpio` leaves it (the
pin's bit cleared), the pin's physical bit in the GPIO register is 1 if and
only if `set_low` was the last logical operation performed on the pin, and
0 if and only if `set_high` was last performed or the pin was just
configured at construction (empty sequence). -/
theorem C1_last_op_sets_bit (c : Controller) (reg0 : Nat) (ops : List PinOp)
    (hopen : validHandle c.handle = true) (hmask : c.pin_mask ≠ 0) :
    Except.map (fun r => (r &&& c.pin_mask) != 0)
        (run_ops c (Nat.ldiff reg0 c.pin_mask) ops)
      = Except.ok (ops.getLast? == some PinOp.low) := by
  rw [run_ops_last c hopen hmask ops (Nat.ldiff reg0 c.pin_mask)]
  cases hops : ops.getLast? with
  | none => simp [ldiff_land_self]
  | some x => cases x <;> simp

theorem C1_last_op_sets_bit_witness :
    validHandle (Controller.mk 0 "SCL" 1 (some 1)).handle = true
    ∧ (Controller.mk 0 "SCL" 1 (some 1)).pin_mask ≠ 0
    ∧ Except.map
        (fun r => (r &&& (Controller.mk 0 "SCL" 1 (some 1)).pin_mask) != 0)
        (run_ops (Controller.mk 0 "SCL" 1 (some 1)) (Nat.ldiff 0xAB 1)
          [PinOp.low, PinOp.high, PinOp.low])
      = Except.ok ([PinOp.low, PinOp.high, PinOp.low].getLast? == some PinOp.low) :=
  ⟨by decide, by decide,
   C1_last_op_sets_bit (Controller.mk 0 "SCL" 1 (some 1)) 0xAB
     [PinOp.low, PinOp.high, PinOp.low] (by decide) (by decide)⟩

/-- C2: on an open controller, for every starting register value,
`set_low()` followed by `get_state()` returns `true`, and `set_high()`
followed by `get_state()` returns `false`. -/
theorem C2_set_then_get (c : Controller) (reg : Nat)
    (hopen : validHandle c.handle = true) (hmask : c.pin_mask ≠ 0) :
    Except.map Prod.fst (Except.bind (set_low c reg) (fun p => get_state c p.1))
      = Except.ok true
    ∧ Except.map Prod.fst (Except.bind (set_high c reg) (fun p => get_state c p.1))
      = Except.ok false := by
  constructor
  · have h1 : Except.bind (set_low c reg) (fun p => get_state c p.1)
        = get_state c (reg ||| c.pin_mask) := by
      rw [set_low_open c reg hopen]
      rfl
    rw [h1, get_state_open c (reg ||| c.pin_mask) hopen]
    simp [Except.map, lor_land_self, hmask]
  · have h1 : Except.bind (set_high c reg) (fun p => get_state c p.1)
        = get_state c (Nat.ldiff reg c.pin_mask) := by
      rw [set_high_open c reg hopen]
      rfl
    rw [h1, get_state_open c (Nat.ldiff reg c.pin_mask) hopen]
    simp [Except.map, ldiff_land_self]

theorem C2_set_then_get_witness :
    validHandle (Controller.mk 0 "SDA" 2 (some 3)).handle = true
    ∧ (Controller.mk 0 "SDA" 2 (some 3)).pin_mask ≠ 0
    ∧ (Except.map Prod.fst
        (Except.bind (set_low (Controller.mk 0 "SDA" 2 (some 3)) 0x55)
          (fun p => get_state (Controller.mk 0 "SDA" 2 (some 3)) p.1))
        = Except.ok true
      ∧ Except.map Prod.fst
        (Except.bind (set_high (Controller.mk 0 "SDA" 2 (some 3)) 0x55)
          (fun p => get_state (Controller.mk 0 "SDA" 2 (some 3)) p.1))
        = Except.ok false) :=
  ⟨by decide, by decide,
   C2_set_then_get (Controller.mk 0 "SDA" 2 (some 3)) 0x55 (by decide) (by decide)⟩

/-- C3: on an open controller, for every starting register value (in
particular values where other pins' bits are pre-set), `set_high` and
`set_low` leave every bit outside `pin_mask` unchanged. -/
theorem C3_frame_other_bits (c : Controller) (reg j : Nat)
    (hopen : validHandle c.handle = true)
    (hj : c.pin_mask.testBit j = false) :
    Except.map (fun p => Nat.testBit p.1 j) (set_high c reg)
      = Except.ok (reg.testBit j)
    ∧ Except.map (fun p => Nat.testBit p.1 j) (set_low c reg)
      = Except.ok (reg.testBit j) := by
  constructor
  · rw [set_high_open c reg hopen]
    simp [Except.map, Nat.testBit_ldiff, hj]
  · rw [set_low_open c reg hopen]
    simp [Except.map, Nat.testBit_lor, hj]

theorem C3_frame_other_bits_witness :
    validHandle (Controller.mk 0 "MISO" 4 (some 1)).handle = true
    ∧ (Controller.mk 0 "MISO" 4 (some 1)).pin_mask.testBit 5 = false
    ∧ (Except.map (fun p => Nat.testBit p.1 5)
        (set_high (Controller.mk 0 "MISO" 4 (some 1)) 0xEB)
        = Except.ok (Nat.testBit 0xEB 5)
      ∧ Except.map (fun p => Nat.testBit p.1 5)
        (set_low (Controller.mk 0 "MISO" 4 (some 1)) 0xEB)
        = Except.ok (Nat.testBit 0xEB 5)) :=
  ⟨by decide, by decide,
   C3_frame_other_bits (Controller.mk 0 "MISO" 4 (some 1)) 0xEB 5
     (by decide) (by decide)⟩

/-- `errKind` sends the zero-devices `RuntimeError` to `DeviceNotFound`. -/
theorem errKind_noDevices :
    errKind (PyError.runtimeError noDevicesMsg) = ErrKind.deviceNotFound := by
  decide

/-- `errKind` sends the non-positive-handle `RuntimeError` (for every port
and vendor error code) to `DeviceOpenFailed`. -/
theorem errKind_openFailed (port : Nat) (h : Int) :
    errKind (PyError.runtimeError (openFailedMsg port h)) = ErrKind.deviceOpenFailed := by
  have hpre : "Failed to open".data.isPrefixOf (openFailedMsg port h).data = true := rfl
  simp [errKind, hpre]

/-- C4: every successful construction (valid selector, devices found, port
in range, positive handle) raises nothing, and `get_state()` immediately
after construction returns `false` for every prior register value, because
`_configure_gpio` cleared the selected pin's bit. -/
theorem C4_initial_get_state_false (port : Nat) (pin : PinSelector) (env : OpenEnv)
    (name : String) (mask : Nat)
    (hres : resolve_pin pin = .ok (name, mask))
    (hdev : env.num_devices ≠ 0)
    (hport : port < env.num_devices)
    (hhandle : 0 < env.open_handle) :
    (init port pin env).error = none
    ∧ Except.map Prod.fst
        (get_state
          { port := port, pin_name := name, pin_mask := mask,
            handle := (init port pin env).handle }
          ((init port pin env).reg))
      = Except.ok false := by
  have hv : validHandle (some env.open_handle) = true := by
    simp [validHandle, hhandle]
  have hinit : init port pin env =
      { pin := some (name, mask), handle := some env.open_handle,
        reg := Nat.ldiff env.reg0 mask,
        events := [Event.findDevices env.num_devices,
                   Event.openDev port env.open_handle, Event.version,
                   Event.configure AA_CONFIG_GPIO_ONLY,
                   Event.gpioDirection mask, Event.gpioPullup 0x00,
                   Event.gpioGet env.reg0,
                   Event.gpioSet (Nat.ldiff env.reg0 mask)],
        error := none } := by
    simp [init, hres, openRun, hdev, not_le.mpr hport, not_le.mpr hhandle,
      configure_gpio]
  constructor
  · rw [hinit]
  · rw [hinit]
    rw [get_state_open _ _ hv]
    simp [Except.map, ldiff_land_self]

theorem C4_initial_get_state_false_witness :
    resolve_pin (PinSelector.str "sda") = .ok ("SDA", 2)
    ∧ (OpenEnv.mk 2 7 0xFF).num_devices ≠ 0
    ∧ 1 < (OpenEnv.mk 2 7 0xFF).num_devices
    ∧ 0 < (OpenEnv.mk 2 7 0xFF).open_handle
    ∧ ((init 1 (PinSelector.str "sda") (OpenEnv.mk 2 7 0xFF)).error = none
      ∧ Except.map Prod.fst
          (get_state
            { port := 1, pin_name := "SDA", pin_mask := 2,
              handle := (init 1 (PinSelector.str "sda") (OpenEnv.mk 2 7 0xFF)).handle }
            ((init 1 (PinSelector.str "sda") (OpenEnv.mk 2 7 0xFF)).reg))
        = Except.ok false) :=
  ⟨by decide, by decide, by decide, by decide,
   C4_initial_get_state_false 1 (PinSelector.str "sda") (OpenEnv.mk 2 7 0xFF)
     "SDA" 2 (by decide) (by decide) (by decide) (by decide)⟩

/-- C5: `_open` fails with the spec's `DeviceNotFound` when zero devices
are enumerated; otherwise with `InvalidArgument` when the port index is
not below the device count; otherwise with `DeviceOpenFailed` (message
carrying the vendor error code, i.e. the returned handle) when the handle
is non-positive; and succeeds (no error) exactly when none of these
triggers — in that order of checks. -/
theorem C5_open_failure_order (port pin_mask : Nat) (env : OpenEnv) :
    (env.num_devices = 0 →
      (openRun port pin_mask env).error = some (PyError.runtimeError noDevicesMsg)
      ∧ Option.map errKind (openRun port pin_mask env).error
          = some ErrKind.deviceNotFound)
    ∧ (env.num_devices ≠ 0 → env.num_devices ≤ port →
      (openRun port pin_mask env).error
          = some (PyError.valueError (portNotAvailableMsg port env.num_devices))
      ∧ Option.map errKind (openRun port pin_mask env).error
          = some ErrKind.invalidArgument)
    ∧ (env.num_devices ≠ 0 → port < env.num_devices → env.open_handle ≤ 0 →
      (openRun port pin_mask env).error
          = some (PyError.runtimeError (openFailedMsg port env.open_handle))
      ∧ Option.map errKind (openRun port pin_mask env).error
          = some ErrKind.deviceOpenFailed)
    ∧ (env.num_devices ≠ 0 → port < env.num_devices → 0 < env.open_handle →
      (openRun port pin_mask env).error = none) := by
  refine ⟨fun h0 => ?_, fun h0 hp => ?_, fun h0 hp hh => ?_, fun h0 hp hh => ?_⟩
  · have he : (openRun port pin_mask env).error
        = some (PyError.runtimeError noDevicesMsg) := by
      simp [openRun, h0]
    exact ⟨he, by rw [he, Option.map, errKind_noDevices]⟩
  · have he : (openRun port pin_mask env).error
        = some (PyError.valueError (portNotAvailableMsg port env.num_devices)) := by
      simp [openRun, h0, hp]
    exact ⟨he, by rw [he]; rfl⟩
  · have he : (openRun port pin_mask env).error
        = some (PyError.runtimeError (openFailedMsg port env.open_handle)) := by
      simp [openRun, h0, not_le.mpr hp, hh]
    exact ⟨he, by rw [he, Option.map, errKind_openFailed]⟩
  · simp [openRun, h0, not_le.mpr hp, not_le.mpr hh]

theorem C5_open_failure_order_witness :
    ((openRun 0 1 (OpenEnv.mk 0 5 0)).error
        = some (PyError.runtimeError noDevicesMsg)
      ∧ Option.map errKind (openRun 0 1 (OpenEnv.mk 0 5 0)).error
        = some ErrKind.deviceNotFound)
    ∧ ((openRun 3 1 (OpenEnv.mk 2 5 0)).error
        = some (PyError.valueError (portNotAvailableMsg 3 2))
      ∧ Option.map errKind (openRun 3 1 (OpenEnv.mk 2 5 0)).error
        = some ErrKind.invalidArgument)
    ∧ ((openRun 0 1 (OpenEnv.mk 1 (-4) 0)).error
        = some (PyError.runtimeError (openFailedMsg 0 (-4)))
      ∧ Option.map errKind (openRun 0 1 (OpenEnv.mk 1 (-4) 0)).error
        = some ErrKind.deviceOpenFailed)
    ∧ (openRun 0 1 (OpenEnv.mk 1 7 0)).error = none :=
  ⟨(C5_open_failure_order 0 1 (OpenEnv.mk 0 5 0)).1 (by decide),
   (C5_open_failure_order 3 1 (OpenEnv.mk 2 5 0)).2.1 (by decide) (by decide),
   (C5_open_failure_order 0 1 (OpenEnv.mk 1 (-4) 0)).2.2.1
     (by decide) (by decide) (by decide),
   (C5_open_failure_order 0 1 (OpenEnv.mk 1 7 0)).2.2.2
     (by decide) (by decide) (by decide)⟩

/-- C7: for every index i in 0..5, constructing with the integer i and with
any casing of the i-th pin name of {SCL, SDA, MISO, SCK, MOSI, SS} resolve
to the same `pin_name` and `pin_mask` (namely the i-th name and its mask
from `GPIO_PINS`). -/
theorem C7_int_str_selectors_agree (i : Nat) (s : String)
    (hi : i < 6) (hs : str_upper s = pin_names.getD i "") :
    resolve_pin (.int (i : Int)) = resolve_pin (.str s)
    ∧ resolve_pin (.int (i : Int))
        = .ok (pin_names.getD i "",
               (GPIO_PINS.lookup (pin_names.getD i "")).getD 0) := by
  interval_cases i
  · exact ⟨by rw [resolve_pin_str s AA_GPIO_SCL (by rw [hs]; decide), hs]; decide,
      by decide⟩
  · exact ⟨by rw [resolve_pin_str s AA_GPIO_SDA (by rw [hs]; decide), hs]; decide,
      by decide⟩
  · exact ⟨by rw [resolve_pin_str s AA_GPIO_MISO (by rw [hs]; decide), hs]; decide,
      by decide⟩
  · exact ⟨by rw [resolve_pin_str s AA_GPIO_SCK (by rw [hs]; decide), hs]; decide,
      by decide⟩
  · exact ⟨by rw [resolve_pin_str s AA_GPIO_MOSI (by rw [hs]; decide), hs]; decide,
      by decide⟩
  · exact ⟨by rw [resolve_pin_str s AA_GPIO_SS (by rw [hs]; decide), hs]; decide,
      by decide⟩

theorem C7_int_str_selectors_agree_witness :
    (4 : Nat) < 6
    ∧ str_upper "mosi" = pin_names.getD 4 ""
    ∧ (resolve_pin (.int (4 : Int)) = resolve_pin (.str "mosi")
      ∧ resolve_pin (.int (4 : Int))
          = .ok (pin_names.getD 4 "",
                 (GPIO_PINS.lookup (pin_names.getD 4 "")).getD 0)) :=
  ⟨by decide, by decide,
   C7_int_str_selectors_agree 4 "mosi" (by decide) (by decide)⟩

/-- C8: calling `close()` twice in succession does not raise — the second
call is a no-op that performs no driver call — and after `close()` every
pin operation (`set_high`, `set_low`, `get_state`, `pulse`) fails with the
spec's `NotOpen`-kind error. -/
theorem C8_close_twice_then_not_open (c : Controller) (reg d : Nat) :
    (close (close c).1).1 = (close c).1
    ∧ (close (close c).1).2 = []
    ∧ set_high (close c).1 reg = .error PyError.driverInvalidHandle
    ∧ set_low (close c).1 reg = .error PyError.driverInvalidHandle
    ∧ get_state (close c).1 reg = .error PyError.driverInvalidHandle
    ∧ pulse (close c).1 reg d = .error PyError.driverInvalidHandle
    ∧ errKind PyError.driverInvalidHandle = ErrKind.notOpen := by
  have hch : validHandle (close c).1.handle = false := by
    cases hc : c.handle with
    | none => simp [close, hc, validHandle]
    | some h =>
      by_cases h0 : h = 0
      · simp [close, hc, h0, validHandle]
      · simp [close, hc, h0, validHandle]
  have hclose2 : close (close c).1 = ((close c).1, []) := by
    cases hc : c.handle with
    | none => simp [close, hc]
    | some h =>
      by_cases h0 : h = 0
      · simp [close, hc, h0]
      · simp [close, hc, h0]
  exact ⟨by rw [hclose2], by rw [hclose2],
    set_high_closed _ _ hch, set_low_closed _ _ hch,
    get_state_closed _ _ hch, pulse_closed _ _ _ hch, rfl⟩

/-- C9: on an open controller, for every register value and duration,
`pulse(d)` is observationally equivalent to `set_low()`, a blocking wait
of d milliseconds, then `set_high()` (the program `pulse_spec` written
from the spec's words): both produce the identical driver trace — two
read/write/read-back groups around the wait — and the identical final
register. -/
theorem C9_pulse_equiv_low_wait_high (c : Controller) (reg d : Nat)
    (hopen : validHandle c.handle = true) :
    pulse c reg d = pulse_spec c reg d
    ∧ pulse c reg d
      = .ok (Nat.ldiff (reg ||| c.pin_mask) c.pin_mask,
        [.gpioGet reg, .gpioSet (reg ||| c.pin_mask), .gpioGet (reg ||| c.pin_mask),
         .sleepMs d,
         .gpioGet (reg ||| c.pin_mask),
         .gpioSet (Nat.ldiff (reg ||| c.pin_mask) c.pin_mask),
         .gpioGet (Nat.ldiff (reg ||| c.pin_mask) c.pin_mask)]) := by
  constructor
  · rfl
  · rw [pulse, set_low_open c reg hopen]
    have h2 := set_high_open c (reg ||| c.pin_mask) hopen
    simp [Bind.bind, Except.bind, h2, Pure.pure, Except.pure]

theorem C9_pulse_equiv_low_wait_high_witness :
    validHandle (Controller.mk 0 "SS" 32 (some 2)).handle = true
    ∧ (pulse (Controller.mk 0 "SS" 32 (some 2)) 0x41 100
        = pulse_spec (Controller.mk 0 "SS" 32 (some 2)) 0x41 100
      ∧ pulse (Controller.mk 0 "SS" 32 (some 2)) 0x41 100
        = .ok (Nat.ldiff (0x41 ||| (Controller.mk 0 "SS" 32 (some 2)).pin_mask)
                 (Controller.mk 0 "SS" 32 (some 2)).pin_mask,
          [.gpioGet 0x41,
           .gpioSet (0x41 ||| (Controller.mk 0 "SS" 32 (some 2)).pin_mask),
           .gpioGet (0x41 ||| (Controller.mk 0 "SS" 32 (some 2)).pin_mask),
           .sleepMs 100,
           .gpioGet (0x41 ||| (Controller.mk 0 "SS" 32 (some 2)).pin_mask),
           .gpioSet (Nat.ldiff (0x41 ||| (Controller.mk 0 "SS" 32 (some 2)).pin_mask)
                       (Controller.mk 0 "SS" 32 (some 2)).pin_mask),
           .gpioGet (Nat.ldiff (0x41 ||| (Controller.mk 0 "SS" 32 (some 2)).pin_mask)
                       (Controller.mk 0 "SS" 32 (some 2)).pin_mask)])) :=
  ⟨by decide,
   C9_pulse_equiv_low_wait_high (Controller.mk 0 "SS" 32 (some 2)) 0x41 100 (by decide)⟩

/-- C10: when `aa_open` returns a non-positive value, `_open` raises the
open-failure error but `self.handle` keeps that non-positive value (it is
not reset to `None`); a subsequent `close()` — the same routine that
context-manager exit and the destructor invoke — treats any non-zero
handle as open and passes the invalid handle to the driver's close call,
while only `None` and `0` handles are treated as already closed. -/
theorem C10_failed_open_keeps_handle (port pin_mask : Nat) (env : OpenEnv)
    (c : Controller)
    (hdev : env.num_devices ≠ 0) (hport : port < env.num_devices)
    (hh : env.open_handle ≤ 0)
    (hc : c.handle = (openRun port pin_mask env).handle) :
    (openRun port pin_mask env).handle = some env.open_handle
    ∧ (openRun port pin_mask env).error
        = some (PyError.runtimeError (openFailedMsg port env.open_handle))
    ∧ destructor c = close c
    ∧ contextExit c = close c
    ∧ (env.open_handle ≠ 0 →
        close c = ({ c with handle := none }, [Event.closeDev env.open_handle]))
    ∧ (env.open_handle = 0 → close c = (c, [])) := by
  have ho : (openRun port pin_mask env).handle = some env.open_handle := by
    simp [openRun, hdev, not_le.mpr hport, hh]
  have hcs : c.handle = some env.open_handle := hc.trans ho
  refine ⟨ho, by simp [openRun, hdev, not_le.mpr hport, hh], rfl, rfl, ?_, ?_⟩
  · intro hne
    simp [close, hcs, hne]
  · intro h0
    simp [close, hcs, h0]

theorem C10_failed_open_keeps_handle_witness :
    (OpenEnv.mk 1 (-2) 9).num_devices ≠ 0
    ∧ 0 < (OpenEnv.mk 1 (-2) 9).num_devices
    ∧ (OpenEnv.mk 1 (-2) 9).open_handle ≤ 0
    ∧ (Controller.mk 0 "SCL" 1 (some (-2))).handle
        = (openRun 0 1 (OpenEnv.mk 1 (-2) 9)).handle
    ∧ ((openRun 0 1 (OpenEnv.mk 1 (-2) 9)).handle = some (OpenEnv.mk 1 (-2) 9).open_handle
      ∧ (openRun 0 1 (OpenEnv.mk 1 (-2) 9)).error
          = some (PyError.runtimeError
              (openFailedMsg 0 (OpenEnv.mk 1 (-2) 9).open_handle))
      ∧ destructor (Controller.mk 0 "SCL" 1 (some (-2)))
          = close (Controller.mk 0 "SCL" 1 (some (-2)))
      ∧ contextExit (Controller.mk 0 "SCL" 1 (some (-2)))
          = close (Controller.mk 0 "SCL" 1 (some (-2)))
      ∧ ((OpenEnv.mk 1 (-2) 9).open_handle ≠ 0 →
          close (Controller.mk 0 "SCL" 1 (some (-2)))
            = ({ Controller.mk 0 "SCL" 1 (some (-2)) with handle := none },
               [Event.closeDev (OpenEnv.mk 1 (-2) 9).open_handle]))
      ∧ ((OpenEnv.mk 1 (-2) 9).open_handle = 0 →
          close (Controller.mk 0 "SCL" 1 (some (-2)))
            = (Controller.mk 0 "SCL" 1 (some (-2)), []))) :=
  ⟨by decide, by decide, by decide, by decide,
   C10_failed_open_keeps_handle 0 1 (OpenEnv.mk 1 (-2) 9)
     (Controller.mk 0 "SCL" 1 (some (-2)))
     (by decide) (by decide) (by decide) (by decide)⟩

end AardvarkGPIO
